import Mathlib

/-!
Verification of the acquisition-aggregation-encode-transmit cycle of the
Weather Station sketch (src/proRF/proRF.ino).

The sketch drives four collaborators (a BME280 atmospheric sensor, a CCS811
air-quality sensor, a Geiger pulse counter, and an RFM95W LoRa radio).
Its control logic is embedded shallowly below:

  * the global packet and packet counter become an explicit state
    (LoopState), mutated by a pure transition function (loop) that mirrors
    the body of the Arduino loop() statement by statement;
  * the collaborators are outside the core (their drivers are separate
    headers of the repository, not part of this sketch), so each cycle is
    parameterised by a CycleEnv record holding every response the
    collaborators give during that cycle;
  * measurement values are C floats that the core only copies, never
    computes with, so they are modelled by an abstract type V;
  * the machine integers uint32_t and uint16_t are modelled as Nat with
    explicit reduction modulo 2 ^ 32 and 2 ^ 16 where the C code can wrap.
-/

namespace ProRF

/-- Bit positions of the anonymous error enum in proRF.ino (deviceinfo
health flags sent to the Raspberry Pi). -/
def CCS_ERROR_MESSAGE_INVALID : Nat := 0

def CCS_ERROR_READ_REGISTER_INVALID : Nat := 1

def CCS_ERROR_MEASUREMENT_INVALID : Nat := 2

def CCS_ERROR_MAX_RESISTANCE : Nat := 3

def CCS_ERROR_HEATER_FAULT : Nat := 4

def CCS_ERROR_HEATER_SUPPLY : Nat := 5

def CCS_ERROR_COMMUNICATION : Nat := 6

def RADIO_ERROR_BIT : Nat := 7

def BATTERY_ERROR_BIT : Nat := 8

def SOLAR_PANEL_ERROR_BIT : Nat := 9

def CHARGING_STATUS_ERROR_BIT : Nat := 10

/-- The struct weatherpacket of proRF.ino.  nodeID, packetnum and
deviceinfo are uint32_t and count is uint16_t, modelled as Nat kept below
the corresponding modulus; the five float measurement fields carry the
abstract value type V (the sketch only copies them, never computes with
them). -/
structure weatherpacket (V : Type) where
  nodeID : Nat
  tempC : V
  pressPa : V
  hum : V
  CO2ppm : V
  tVOCppb : V
  count : Nat
  packetnum : Nat
  deviceinfo : Nat
deriving DecidableEq

/-- The C initialiser weatherpacket pack = { 1 } sets nodeID to 1 and
value-initialises every other member to zero; v0 is the zero value of the
measurement type (0.0f in the C code). -/
def initPack {V : Type} (v0 : V) : weatherpacket V :=
  { nodeID := 1, tempC := v0, pressPa := v0, hum := v0, CO2ppm := v0,
    tVOCppb := v0, count := 0, packetnum := 0, deviceinfo := 0 }

/-- The mutable globals of the sketch that survive between cycles:
the packet object and the uint32_t packetcounter. -/
structure LoopState (V : Type) where
  pack : weatherpacket V
  packetcounter : Nat
deriving DecidableEq

/-- State of the globals when loop() first runs: pack = { 1 } and
packetcounter = 0. -/
def initState {V : Type} (v0 : V) : LoopState V :=
  { pack := initPack v0, packetcounter := 0 }

/-- Modelled from the spec: the collaborator responses during one cycle.
The drivers BME280.h, CCS811.h and Geiger.h belong to the repository but
are not part of the sketch under verification; per the spec contracts
(readMeasurements yields values or fails, a failed read delivers no values
so the output parameters keep their previous contents, and lastFaultCode
returns a bitfield value after a failing air-quality call) a failed read
is a none response that leaves the written-through fields unchanged.
airReadFault is the value getError() returns after a failed
readSensor, setInfoFault the value it returns after a failed setInfo. -/
structure CycleEnv (V : Type) where
  atmosRead : Option (V × V × V)
  altRead : Option V
  airRead : Option (V × V)
  airReadFault : Nat
  setInfoFails : Bool
  setInfoFault : Nat
  radRead : Option Nat
deriving DecidableEq

/-- Calls the cycle makes on the sensor and radio collaborators, in
program order.  getError() is a side-effect-free accessor on the
air-quality driver and is not traced. -/
inductive Event (V : Type) where
  | atmosReadSensor
  | atmosReadAlt
  | airReadSensor
  | airSetInfo (hum : V) (tempC : V)
  | radReadSensor
  | radioSend (p : weatherpacket V)
  | radioWaitSent
  | radioSleep
deriving DecidableEq

/-- Lines the cycle writes to the SerialUSB diagnostic sink.  The two
atmosphere failure branches print the same text, hence one constructor
for both.  The summary constructor stands for the per-cycle status line,
which renders every packet field plus the cycle-local altitude; when the
altitude read failed the C code prints an indeterminate float, modelled as
none. -/
inductive LogLine (V : Type) where
  | atmosReadFailLine
  | airReadFailLine
  | setInfoFailLine
  | radReadFailLine
  | summary (p : weatherpacket V) (alt : Option V)
deriving DecidableEq

/-- Everything one execution of the loop() body produces: the new global
state, the packet handed to rf95.send, the collaborator call trace and the
diagnostic output. -/
structure CycleResult (V : Type) where
  state : LoopState V
  sent : weatherpacket V
  calls : List (Event V)
  log : List (LogLine V)

/-- The packet after the atmosphere.readSensor call: on success the call
writes tempC, pressPa and hum through the passed pointers, on failure it
leaves them unchanged. -/
def afterAtmos {V : Type} (env : CycleEnv V) (pack : weatherpacket V) :
    weatherpacket V :=
  match env.atmosRead with
  | some (t, p, h) => { pack with tempC := t, pressPa := p, hum := h }
  | none => pack

/-- One execution of the loop() body of proRF.ino, statement by
statement: read atmosphere into the packet, read the cycle-local
altitude, read air quality into the packet (OR getError() into deviceinfo
on failure), feed the packet hum and tempC to setInfo (OR getError()
into deviceinfo on failure), read the Geiger count into the packet, stamp
packetnum with packetcounter and post-increment the counter modulo
2 ^ 32, print the summary line, send the packet, wait, sleep the radio,
delay, and finally clear deviceinfo for the next cycle. -/
def loop {V : Type} (env : CycleEnv V) (s : LoopState V) : CycleResult V :=
  let pack1 := afterAtmos env s.pack
  let log1 : List (LogLine V) :=
    if env.atmosRead.isNone then [.atmosReadFailLine] else []
  let log2 : List (LogLine V) :=
    if env.altRead.isNone then [.atmosReadFailLine] else []
  let pack2 :=
    match env.airRead with
    | some (c, t) => { pack1 with CO2ppm := c, tVOCppb := t }
    | none =>
        { pack1 with
          deviceinfo := Nat.lor pack1.deviceinfo (env.airReadFault % 2 ^ 32) }
  let log3 : List (LogLine V) :=
    if env.airRead.isNone then [.airReadFailLine] else []
  let pack3 :=
    if env.setInfoFails then
      { pack2 with
        deviceinfo := Nat.lor pack2.deviceinfo (env.setInfoFault % 2 ^ 32) }
    else pack2
  let log4 : List (LogLine V) :=
    if env.setInfoFails then [.setInfoFailLine] else []
  let pack4 :=
    match env.radRead with
    | some c => { pack3 with count := c % 2 ^ 16 }
    | none => pack3
  let log5 : List (LogLine V) :=
    if env.radRead.isNone then [.radReadFailLine] else []
  let pack5 := { pack4 with packetnum := s.packetcounter }
  let counter := (s.packetcounter + 1) % 2 ^ 32
  { state := { pack := { pack5 with deviceinfo := 0 }, packetcounter := counter },
    sent := pack5,
    calls :=
      [.atmosReadSensor, .atmosReadAlt, .airReadSensor,
       .airSetInfo pack2.hum pack2.tempC, .radReadSensor,
       .radioSend pack5, .radioWaitSent, .radioSleep],
    log := log1 ++ log2 ++ log3 ++ log4 ++ log5 ++ [.summary pack5 env.altRead] }

/-- Run the loop once per environment in the list, starting from state s;
returns the final state and the packets handed to the radio, first cycle
first. -/
def runCycles {V : Type} (s : LoopState V) :
    List (CycleEnv V) → LoopState V × List (weatherpacket V)
  | [] => (s, [])
  | e :: es =>
    let r := loop e s
    let rest := runCycles r.state es
    (rest.1, r.sent :: rest.2)

/-- Boot-time collaborator responses: whether each startSensor / init
call reports failure. -/
structure BootEnv where
  atmosInitFails : Bool
  airInitFails : Bool
  radInitFails : Bool
  radioInitFails : Bool
deriving DecidableEq

/-- Outcome of setup(): either the board falls through to the acquisition
cycle, or it is trapped forever in one of the diagnostic while(true)
blink loops; blinks is the number of LED pulses each repetition of that
terminal loop emits (one for the atmospheric sensor, two for the
air-quality sensor, three for the radio). -/
inductive BootOutcome where
  | ready
  | halted (blinks : Nat)
deriving DecidableEq

/-- Lines setup() writes to SerialUSB, one constructor per distinct
print statement. -/
inductive BootLog where
  | bmeInitBegin
  | bmeDone
  | bmeFailLine
  | ccsInitBegin
  | ccsDone
  | ccsFailLine
  | geigerInitBegin
  | geigerDone
  | geigerFailLine
  | rfmInitBegin
  | rfmDone
  | rfmFailLine
deriving DecidableEq

/-- The setup() function of proRF.ino: initialise the BME280, the CCS811,
the Geiger counter and the RFM95W in that order.  BME, CCS and radio
failures are fatal (the board blinks forever and never reaches loop());
a Geiger failure is only logged and initialisation continues. -/
def setup (b : BootEnv) : BootOutcome × List BootLog :=
  if b.atmosInitFails then
    (.halted 1, [.bmeInitBegin, .bmeFailLine])
  else if b.airInitFails then
    (.halted 2, [.bmeInitBegin, .bmeDone, .ccsInitBegin, .ccsFailLine])
  else
    let geigerLog : List BootLog :=
      if b.radInitFails then [.geigerFailLine] else [.geigerDone]
    if b.radioInitFails then
      (.halted 3,
       [.bmeInitBegin, .bmeDone, .ccsInitBegin, .ccsDone, .geigerInitBegin] ++
         geigerLog ++ [.rfmInitBegin, .rfmFailLine])
    else
      (.ready,
       [.bmeInitBegin, .bmeDone, .ccsInitBegin, .ccsDone, .geigerInitBegin] ++
         geigerLog ++ [.rfmInitBegin, .rfmDone])

/-- Packets the board ever hands to the radio: none when setup() is
trapped in a diagnostic blink loop, otherwise one per cycle. -/
def systemEmitted {V : Type} (v0 : V) (b : BootEnv)
    (envs : List (CycleEnv V)) : List (weatherpacket V) :=
  match (setup b).1 with
  | .halted _ => []
  | .ready => (runCycles (initState v0) envs).2

/-- A fixed all-successful cycle environment over Int measurements, used
to evaluate the model at the end-to-end scenario of the spec. -/
def envAllOk : CycleEnv Int :=
  { atmosRead := some (21, 101300, 45), altRead := some 300,
    airRead := some (410, 120), airReadFault := 0,
    setInfoFails := false, setInfoFault := 0, radRead := some 3 }

/-- A fixed cycle environment in which every sensor read and the
compensation call fail. -/
def envAllFail : CycleEnv Int :=
  { atmosRead := none, altRead := none, airRead := none,
    airReadFault := 4, setInfoFails := true, setInfoFault := 8,
    radRead := none }

section Lemmas

variable {V : Type}

theorem loop_sent_packetnum (env : CycleEnv V) (s : LoopState V) :
    (loop env s).sent.packetnum = s.packetcounter := rfl

theorem loop_state_packetcounter (env : CycleEnv V) (s : LoopState V) :
    (loop env s).state.packetcounter = (s.packetcounter + 1) % 2 ^ 32 := rfl

theorem loop_clears_deviceinfo (env : CycleEnv V) (s : LoopState V) :
    (loop env s).state.pack.deviceinfo = 0 := rfl

theorem afterAtmos_deviceinfo (env : CycleEnv V) (pack : weatherpacket V) :
    (afterAtmos env pack).deviceinfo = pack.deviceinfo := by
  unfold afterAtmos
  cases env.atmosRead with
  | none => rfl
  | some v => rfl

theorem runCycles_length (envs : List (CycleEnv V)) (s : LoopState V) :
    ((runCycles s envs).2).length = envs.length := by
  induction envs generalizing s with
  | nil => rfl
  | cons e es ih => simp [runCycles, ih]

theorem runCycles_packetnum (envs : List (CycleEnv V))
    (s : LoopState V) (i : Nat) (p : weatherpacket V)
    (hc : s.packetcounter < 2 ^ 32)
    (hp : ((runCycles s envs).2)[i]? = some p) :
    p.packetnum = (s.packetcounter + i) % 2 ^ 32 := by
  induction envs generalizing s i with
  | nil => simp [runCycles] at hp
  | cons e es ih =>
    cases i with
    | zero =>
      simp [runCycles] at hp
      rw [← hp, loop_sent_packetnum, Nat.add_zero, Nat.mod_eq_of_lt hc]
    | succ j =>
      simp only [runCycles, List.getElem?_cons_succ] at hp
      have hc2 : ((loop e s).state).packetcounter < 2 ^ 32 := by
        rw [loop_state_packetcounter]
        exact Nat.mod_lt _ (by norm_num)
      have := ih (loop e s).state j hc2 hp
      rw [this, loop_state_packetcounter, Nat.mod_add_mod]
      congr 1
      omega

theorem runCycles_deviceinfo (envs : List (CycleEnv V)) (s : LoopState V)
    (h : s.pack.deviceinfo = 0) : ((runCycles s envs).1).pack.deviceinfo = 0 := by
  induction envs generalizing s with
  | nil => exact h
  | cons e es ih => exact ih (loop e s).state (loop_clears_deviceinfo e s)

theorem afterAtmos_none (env : CycleEnv V) (pack : weatherpacket V)
    (h : env.atmosRead = none) : afterAtmos env pack = pack := by
  unfold afterAtmos
  rw [h]

theorem afterAtmos_other_fields (env : CycleEnv V) (pack : weatherpacket V) :
    (afterAtmos env pack).CO2ppm = pack.CO2ppm ∧
    (afterAtmos env pack).tVOCppb = pack.tVOCppb ∧
    (afterAtmos env pack).count = pack.count ∧
    (afterAtmos env pack).nodeID = pack.nodeID := by
  unfold afterAtmos
  cases env.atmosRead with
  | none => exact ⟨rfl, rfl, rfl, rfl⟩
  | some v => exact ⟨rfl, rfl, rfl, rfl⟩

theorem lor_zero_left (x : Nat) : Nat.lor 0 x = x := Nat.zero_or x

theorem lor_zero_right (x : Nat) : Nat.lor x 0 = x := Nat.or_zero x

theorem loop_sent_deviceinfo (env : CycleEnv V) (s : LoopState V)
    (h : s.pack.deviceinfo = 0) :
    (loop env s).sent.deviceinfo =
      Nat.lor (if env.airRead.isNone then env.airReadFault % 2 ^ 32 else 0)
        (if env.setInfoFails then env.setInfoFault % 2 ^ 32 else 0) := by
  obtain ⟨ar, alr, air, f1, sif, f2, rr⟩ := env
  rcases air with _ | ⟨c, t⟩ <;> cases sif <;> rcases rr with _ | rc <;>
    simp [loop, afterAtmos_deviceinfo, h, lor_zero_left, lor_zero_right]

theorem loop_sent_atmos_fields (env : CycleEnv V) (s : LoopState V) :
    (loop env s).sent.tempC = (afterAtmos env s.pack).tempC ∧
    (loop env s).sent.pressPa = (afterAtmos env s.pack).pressPa ∧
    (loop env s).sent.hum = (afterAtmos env s.pack).hum := by
  obtain ⟨ar, alr, air, f1, sif, f2, rr⟩ := env
  rcases air with _ | ⟨c, t⟩ <;> cases sif <;> rcases rr with _ | rc <;>
    simp [loop]

theorem loop_sent_air_fields_stale (env : CycleEnv V) (s : LoopState V)
    (h : env.airRead = none) :
    (loop env s).sent.CO2ppm = s.pack.CO2ppm ∧
    (loop env s).sent.tVOCppb = s.pack.tVOCppb := by
  obtain ⟨ar, alr, air, f1, sif, f2, rr⟩ := env
  cases h
  cases sif <;> rcases rr with _ | rc <;>
    simp [loop, (afterAtmos_other_fields _ _).1, (afterAtmos_other_fields _ _).2.1]

theorem loop_sent_count_stale (env : CycleEnv V) (s : LoopState V)
    (h : env.radRead = none) : (loop env s).sent.count = s.pack.count := by
  obtain ⟨ar, alr, air, f1, sif, f2, rr⟩ := env
  cases h
  rcases air with _ | ⟨c, t⟩ <;> cases sif <;>
    simp [loop, (afterAtmos_other_fields _ _).2.2.1]

theorem loop_calls (env : CycleEnv V) (s : LoopState V) :
    (loop env s).calls =
      [Event.atmosReadSensor, Event.atmosReadAlt, Event.airReadSensor,
       Event.airSetInfo (afterAtmos env s.pack).hum (afterAtmos env s.pack).tempC,
       Event.radReadSensor, Event.radioSend (loop env s).sent,
       Event.radioWaitSent, Event.radioSleep] := by
  obtain ⟨ar, alr, air, f1, sif, f2, rr⟩ := env
  rcases air with _ | ⟨c, t⟩ <;> simp [loop]

theorem loop_state_measurements (env : CycleEnv V) (s : LoopState V) :
    (loop env s).state.pack.tempC = (loop env s).sent.tempC ∧
    (loop env s).state.pack.pressPa = (loop env s).sent.pressPa ∧
    (loop env s).state.pack.hum = (loop env s).sent.hum ∧
    (loop env s).state.pack.CO2ppm = (loop env s).sent.CO2ppm ∧
    (loop env s).state.pack.tVOCppb = (loop env s).sent.tVOCppb ∧
    (loop env s).state.pack.count = (loop env s).sent.count :=
  ⟨rfl, rfl, rfl, rfl, rfl, rfl⟩

end Lemmas

/-- C1: the packet emitted in cycle n (counting from 1) carries
packetnum = n - 1: the counter starts at 0 at process start, the value
stamped into the packet is the counter value before it is advanced, and
the counter advances by exactly 1 per cycle whatever the cycle
environment (any combination of read and compensation failures).  The
n - 1 < 2 ^ 32 bound reflects the uint32_t counter, which the spec says
wraps after 2 ^ 32 cycles. -/
theorem packetnum_counts_completed_cycles {V : Type} (v0 : V)
    (envs : List (CycleEnv V)) (n : Nat) (p : weatherpacket V)
    (_h1 : 1 ≤ n) (h2 : n - 1 < 2 ^ 32)
    (hp : ((runCycles (initState v0) envs).2)[n - 1]? = some p) :
    p.packetnum = n - 1 ∧
    (∀ (env : CycleEnv V) (s : LoopState V),
      (loop env s).sent.packetnum = s.packetcounter ∧
      (loop env s).state.packetcounter = (s.packetcounter + 1) % 2 ^ 32) := by
  constructor
  · have hm := runCycles_packetnum envs (initState v0) (n - 1) p
      (by norm_num [initState]) hp
    rw [hm]
    show (0 + (n - 1)) % 2 ^ 32 = n - 1
    rw [Nat.zero_add]
    exact Nat.mod_eq_of_lt h2
  · intro env s
    exact ⟨loop_sent_packetnum env s, loop_state_packetcounter env s⟩

/-- The packet the model emits for the all-successful scenario of the
spec: nodeID 1, the measurements as read, count 3, packetnum 0,
deviceinfo 0. -/
def packetAllOk : weatherpacket Int :=
  { nodeID := 1, tempC := 21, pressPa := 101300, hum := 45, CO2ppm := 410,
    tVOCppb := 120, count := 3, packetnum := 0, deviceinfo := 0 }

/-- Witness for C1 at the concrete first cycle of the all-successful
scenario. -/
theorem packetnum_counts_completed_cycles_witness :
    ((runCycles (initState (0 : Int)) [envAllOk]).2)[0]? = some packetAllOk ∧
      packetAllOk.packetnum = 0 :=
  ⟨by decide,
   (packetnum_counts_completed_cycles 0 [envAllOk] 1 packetAllOk
      (by decide) (by decide) (by decide)).1⟩

/-- C2: deviceinfo is 0 at the start of every cycle before any
collaborator is queried (first conjunct: after any prefix of cycles the
stored packet enters the next cycle with deviceinfo 0, the initial state
included), the clear is unconditional at the end of every cycle whatever
failures occurred (second conjunct), and consequently the deviceinfo of
the packet a cycle emits is a function of that cycle environment alone,
so no fault bit from one cycle reaches a later packet (third
conjunct). -/
theorem deviceinfo_zero_at_cycle_start {V : Type} (v0 : V)
    (envs : List (CycleEnv V)) (env : CycleEnv V) (s : LoopState V) :
    ((runCycles (initState v0) envs).1).pack.deviceinfo = 0 ∧
    (loop env s).state.pack.deviceinfo = 0 ∧
    (loop env ((runCycles (initState v0) envs).1)).sent.deviceinfo =
      Nat.lor (if env.airRead.isNone then env.airReadFault % 2 ^ 32 else 0)
        (if env.setInfoFails then env.setInfoFault % 2 ^ 32 else 0) :=
  ⟨runCycles_deviceinfo envs _ rfl, loop_clears_deviceinfo env s,
   loop_sent_deviceinfo env _ (runCycles_deviceinfo envs _ rfl)⟩

/-- C3: in any cycle (run from process start through an arbitrary prefix
of cycle environments) whose air-quality read fails with fault code F,
every bit of F is set in the emitted deviceinfo; if the compensation
call of the same cycle also fails with fault code G the emitted
deviceinfo is exactly F OR G, and if it does not fail it is exactly F —
fault bits are combined by bitwise OR and never overwritten or cleared
before the packet is sent.  F and G are uint32_t values returned by
getError(). -/
theorem airquality_fault_bits_accumulate {V : Type} (v0 : V)
    (envs : List (CycleEnv V)) (env : CycleEnv V)
    (hA : env.airRead = none)
    (hF : env.airReadFault < 2 ^ 32) (hG : env.setInfoFault < 2 ^ 32) :
    (∀ i, env.airReadFault.testBit i = true →
      ((loop env ((runCycles (initState v0) envs).1)).sent.deviceinfo).testBit i
        = true) ∧
    (env.setInfoFails = true →
      (loop env ((runCycles (initState v0) envs).1)).sent.deviceinfo =
        Nat.lor env.airReadFault env.setInfoFault) ∧
    (env.setInfoFails = false →
      (loop env ((runCycles (initState v0) envs).1)).sent.deviceinfo =
        env.airReadFault) := by
  have hd := loop_sent_deviceinfo env ((runCycles (initState v0) envs).1)
    (runCycles_deviceinfo envs (initState v0) rfl)
  rw [hA] at hd
  simp only [Option.isNone_none, if_true, Nat.mod_eq_of_lt hF,
    Nat.mod_eq_of_lt hG] at hd
  refine ⟨?_, ?_, ?_⟩
  · intro i hi
    rw [hd]
    show (env.airReadFault ||| _).testBit i = true
    rw [Nat.testBit_or, hi, Bool.true_or]
  · intro hs
    rw [hd, hs, if_pos rfl]
  · intro hs
    rw [hd, hs]
    simp [lor_zero_right]

/-- Witness for C3: one cycle from boot in which the air-quality read
fails with fault code 4 and the compensation call fails with fault code
8; the emitted deviceinfo is 12 and has bit 2 of the read fault set. -/
theorem airquality_fault_bits_accumulate_witness :
    (loop envAllFail (initState (0 : Int))).sent.deviceinfo.testBit 2 = true ∧
    (loop envAllFail (initState (0 : Int))).sent.deviceinfo = 12 := by
  have h := airquality_fault_bits_accumulate (0 : Int) [] envAllFail
    (by decide) (by decide) (by decide)
  exact ⟨h.1 2 (by decide), (h.2.1 (by decide)).trans (by decide)⟩

/-- C4: a failed sensor read leaves the corresponding packet fields at
the values the previous cycle emitted (first three conjuncts, stated for a
cycle that follows any run prefix and a previous cycle), and on the very
first cycle a failed read leaves the fields at their initialised
defaults: v0 (the C float zero) for the measurement fields and 0 for the
Geiger count (last three conjuncts). -/
theorem failed_reads_keep_stale_fields {V : Type} (v0 : V)
    (envs : List (CycleEnv V)) (e1 e2 : CycleEnv V) :
    (e2.atmosRead = none →
      (loop e2 (loop e1 ((runCycles (initState v0) envs).1)).state).sent.tempC =
        (loop e1 ((runCycles (initState v0) envs).1)).sent.tempC ∧
      (loop e2 (loop e1 ((runCycles (initState v0) envs).1)).state).sent.pressPa =
        (loop e1 ((runCycles (initState v0) envs).1)).sent.pressPa ∧
      (loop e2 (loop e1 ((runCycles (initState v0) envs).1)).state).sent.hum =
        (loop e1 ((runCycles (initState v0) envs).1)).sent.hum) ∧
    (e2.airRead = none →
      (loop e2 (loop e1 ((runCycles (initState v0) envs).1)).state).sent.CO2ppm =
        (loop e1 ((runCycles (initState v0) envs).1)).sent.CO2ppm ∧
      (loop e2 (loop e1 ((runCycles (initState v0) envs).1)).state).sent.tVOCppb =
        (loop e1 ((runCycles (initState v0) envs).1)).sent.tVOCppb) ∧
    (e2.radRead = none →
      (loop e2 (loop e1 ((runCycles (initState v0) envs).1)).state).sent.count =
        (loop e1 ((runCycles (initState v0) envs).1)).sent.count) ∧
    (e2.atmosRead = none →
      (loop e2 (initState v0)).sent.tempC = v0 ∧
      (loop e2 (initState v0)).sent.pressPa = v0 ∧
      (loop e2 (initState v0)).sent.hum = v0) ∧
    (e2.airRead = none →
      (loop e2 (initState v0)).sent.CO2ppm = v0 ∧
      (loop e2 (initState v0)).sent.tVOCppb = v0) ∧
    (e2.radRead = none → (loop e2 (initState v0)).sent.count = 0) := by
  refine ⟨?_, ?_, ?_, ?_, ?_, ?_⟩
  · intro h
    have ha := loop_sent_atmos_fields e2 (loop e1 ((runCycles (initState v0) envs).1)).state
    have hn := afterAtmos_none e2 (loop e1 ((runCycles (initState v0) envs).1)).state.pack h
    rw [hn] at ha
    have hm := loop_state_measurements e1 ((runCycles (initState v0) envs).1)
    exact ⟨ha.1.trans hm.1, ha.2.1.trans hm.2.1, ha.2.2.trans hm.2.2.1⟩
  · intro h
    have ha := loop_sent_air_fields_stale e2 (loop e1 ((runCycles (initState v0) envs).1)).state h
    have hm := loop_state_measurements e1 ((runCycles (initState v0) envs).1)
    exact ⟨ha.1.trans hm.2.2.2.1, ha.2.trans hm.2.2.2.2.1⟩
  · intro h
    have ha := loop_sent_count_stale e2 (loop e1 ((runCycles (initState v0) envs).1)).state h
    have hm := loop_state_measurements e1 ((runCycles (initState v0) envs).1)
    exact ha.trans hm.2.2.2.2.2
  · intro h
    have ha := loop_sent_atmos_fields e2 (initState v0)
    have hn := afterAtmos_none e2 (initState v0).pack h
    rw [hn] at ha
    exact ⟨ha.1, ha.2.1, ha.2.2⟩
  · intro h
    exact loop_sent_air_fields_stale e2 (initState v0) h
  · intro h
    exact loop_sent_count_stale e2 (initState v0) h

/-- Witness for C4: after an all-successful first cycle, a second cycle
in which every read fails emits the measurements of the first cycle unchanged;
and a first cycle in which every read fails emits the initialised
defaults. -/
theorem failed_reads_keep_stale_fields_witness :
    (loop envAllFail (loop envAllOk (initState (0 : Int))).state).sent.tempC = 21 ∧
    (loop envAllFail (loop envAllOk (initState (0 : Int))).state).sent.CO2ppm = 410 ∧
    (loop envAllFail (loop envAllOk (initState (0 : Int))).state).sent.count = 3 ∧
    (loop envAllFail (initState (0 : Int))).sent.tempC = 0 ∧
    (loop envAllFail (initState (0 : Int))).sent.CO2ppm = 0 ∧
    (loop envAllFail (initState (0 : Int))).sent.count = 0 := by
  have h := failed_reads_keep_stale_fields (0 : Int) [] envAllOk envAllFail
  refine ⟨((h.1 rfl).1).trans (by decide), ((h.2.1 rfl).1).trans (by decide),
    ((h.2.2.1 rfl)).trans (by decide), (h.2.2.2.1 rfl).1, (h.2.2.2.2.1 rfl).1,
    h.2.2.2.2.2 rfl⟩

/-- C5: a fatal boot failure traps setup() in the terminal diagnostic
blink loop with the subsystem-specific pulse count — one pulse per
repetition for the atmospheric sensor, two for the air-quality sensor,
three for the radio — and a board whose boot fails on any of those three
subsystems never emits a packet and never reaches an acquisition
cycle. -/
theorem fatal_boot_failure_never_emits {V : Type} (v0 : V) (b : BootEnv)
    (envs : List (CycleEnv V)) :
    (b.atmosInitFails = true → (setup b).1 = BootOutcome.halted 1) ∧
    (b.atmosInitFails = false → b.airInitFails = true →
      (setup b).1 = BootOutcome.halted 2) ∧
    (b.atmosInitFails = false → b.airInitFails = false →
      b.radioInitFails = true → (setup b).1 = BootOutcome.halted 3) ∧
    ((b.atmosInitFails = true ∨ b.airInitFails = true ∨
        b.radioInitFails = true) →
      systemEmitted v0 b envs = []) := by
  obtain ⟨a1, a2, a3, a4⟩ := b
  cases a1 <;> cases a2 <;> cases a3 <;> cases a4 <;>
    simp [setup, systemEmitted]

/-- Witness for C5: with only the radio init failing the board halts in
the three-pulse blink loop and emits nothing. -/
theorem fatal_boot_failure_never_emits_witness :
    (setup ⟨false, false, false, true⟩).1 = BootOutcome.halted 3 ∧
    systemEmitted (0 : Int) ⟨false, false, false, true⟩ [envAllOk] = [] := by
  have h := fatal_boot_failure_never_emits (0 : Int)
    ⟨false, false, false, true⟩ [envAllOk]
  exact ⟨h.2.2.1 rfl rfl rfl, h.2.2.2 (Or.inr (Or.inr rfl))⟩

/-- C6: a boot-time failure of the radiation counter alone is advisory:
setup() logs the failure line, still completes (outcome ready), and the
acquisition cycles then run and emit exactly the packets they would emit
after a fully successful boot, one per cycle. -/
theorem radiation_boot_failure_is_advisory {V : Type} (v0 : V) (b : BootEnv)
    (envs : List (CycleEnv V))
    (h1 : b.atmosInitFails = false) (h2 : b.airInitFails = false)
    (h3 : b.radioInitFails = false) (h4 : b.radInitFails = true) :
    (setup b).1 = BootOutcome.ready ∧
    BootLog.geigerFailLine ∈ (setup b).2 ∧
    systemEmitted v0 b envs = (runCycles (initState v0) envs).2 ∧
    (systemEmitted v0 b envs).length = envs.length := by
  obtain ⟨a1, a2, a3, a4⟩ := b
  simp only at h1 h2 h3 h4
  subst h1; subst h2; subst h3; subst h4
  refine ⟨rfl, ?_, rfl, ?_⟩
  · simp [setup]
  · simp [systemEmitted, setup, runCycles_length]

/-- Witness for C6 at the concrete boot environment where only the
Geiger init fails. -/
theorem radiation_boot_failure_is_advisory_witness :
    (setup ⟨false, false, true, false⟩).1 = BootOutcome.ready ∧
    systemEmitted (0 : Int) ⟨false, false, true, false⟩ [envAllOk] =
      (runCycles (initState (0 : Int)) [envAllOk]).2 := by
  have h := radiation_boot_failure_is_advisory (0 : Int)
    ⟨false, false, true, false⟩ [envAllOk] rfl rfl rfl rfl
  exact ⟨h.1, h.2.2.1⟩

/-- C7: in every cycle, whatever the environment (so also when the
air-quality read fails), the compensation call is the fourth collaborator
call — after the atmosphere read (first call) and the air-quality read
(third call) — and its arguments are exactly the humidity and
temperature held in the packet state after the atmosphere read of that cycle
read. -/
theorem compensation_after_reads_with_fresh_args {V : Type}
    (env : CycleEnv V) (s : LoopState V) :
    (loop env s).calls[0]? = some Event.atmosReadSensor ∧
    (loop env s).calls[2]? = some Event.airReadSensor ∧
    (loop env s).calls[3]? =
      some (Event.airSetInfo (afterAtmos env s.pack).hum
        (afterAtmos env s.pack).tempC) := by
  rw [loop_calls]
  exact ⟨rfl, rfl, rfl⟩

/-- C8: only the air-quality collaborator ever sets deviceinfo bits — in
any cycle (after any run prefix) whose air-quality read succeeds and
whose compensation call succeeds, the emitted deviceinfo is 0, whatever
happened to the atmosphere, altitude and radiation reads. -/
theorem only_airquality_faults_set_deviceinfo {V : Type} (v0 : V)
    (envs : List (CycleEnv V)) (env : CycleEnv V)
    (hA : env.airRead.isSome = true) (hS : env.setInfoFails = false) :
    (loop env ((runCycles (initState v0) envs).1)).sent.deviceinfo = 0 := by
  have hd := loop_sent_deviceinfo env ((runCycles (initState v0) envs).1)
    (runCycles_deviceinfo envs (initState v0) rfl)
  have hn : env.airRead.isNone = false := by
    rcases h' : env.airRead with _ | v
    · rw [h'] at hA
      cases hA
    · rfl
  rw [hd, hn, hS]
  simp [lor_zero_left]

/-- A cycle environment over Int in which the atmosphere, altitude and
radiation reads all fail but the air-quality read and the compensation
call succeed. -/
def envOnlyAirOk : CycleEnv Int :=
  { atmosRead := none, altRead := none, airRead := some (410, 120),
    airReadFault := 0, setInfoFails := false, setInfoFault := 0,
    radRead := none }

/-- Witness for C8: deviceinfo 0 despite failed atmosphere, altitude and
radiation reads. -/
theorem only_airquality_faults_set_deviceinfo_witness :
    (loop envOnlyAirOk (initState (0 : Int))).sent.deviceinfo = 0 :=
  only_airquality_faults_set_deviceinfo 0 [] envOnlyAirOk
    (by decide) (by decide)

/-- C9: when the atmosphere read of a cycle fails, the compensation call
of that cycle is still made (fourth collaborator call) and receives the
stale humidity and temperature already in the packet when the cycle
began, that is, the values of the previous cycle. -/
theorem stale_compensation_args_on_atmos_failure {V : Type}
    (env : CycleEnv V) (s : LoopState V) (hA : env.atmosRead = none) :
    (loop env s).calls[3]? =
      some (Event.airSetInfo s.pack.hum s.pack.tempC) := by
  rw [loop_calls, afterAtmos_none env s.pack hA]
  rfl

/-- Witness for C9: with every read failing on the first cycle, the
compensation call receives the initial (zero) humidity and
temperature. -/
theorem stale_compensation_args_on_atmos_failure_witness :
    (loop envAllFail (initState (0 : Int))).calls[3]? =
      some (Event.airSetInfo (0 : Int) (0 : Int)) :=
  stale_compensation_args_on_atmos_failure envAllFail (initState 0)
    (by decide)

/-- C10: the altitude read is cycle-local — replacing the altitude
response by any other changes neither the emitted packet nor the
successor state (the weatherpacket record has no altitude field), while
the altitude value itself appears only in the diagnostic summary
line. -/
theorem altitude_only_in_diagnostics {V : Type} (env : CycleEnv V)
    (s : LoopState V) (a : Option V) :
    (loop { env with altRead := a } s).sent = (loop env s).sent ∧
    (loop { env with altRead := a } s).state = (loop env s).state ∧
    LogLine.summary ((loop env s).sent) env.altRead ∈ (loop env s).log := by
  obtain ⟨ar, alr, air, f1, sif, f2, rr⟩ := env
  refine ⟨rfl, rfl, ?_⟩
  simp [loop]

end ProRF
